import Mathlib

/-!
Shallow embedding of the core of the cf-radar-url-scanner worker:
the retry policy (src/worker/utils/retry.ts), the error classifier
(src/unnamed/part_009, utils/error-messages.ts), the session coordinator
durable object (src/worker/types.ts, SessionManager) and the scan workflow
(src/unnamed/part_007, ScanWorkflow).  Times are modelled as Nat
milliseconds, JS objects as Lean structures, and effectful handlers as
pure functions that also return their emitted events.
-/

/-! ## String helpers

JS `String.prototype.includes` is modelled by an executable substring
check over the character lists of the strings. -/

/-- Whether the pattern occurs as a contiguous run inside the haystack,
checked position by position. -/
def strContainsAux (pat : List Char) : List Char → Bool
  | [] => pat.isEmpty
  | c :: rest => pat.isPrefixOf (c :: rest) || strContainsAux pat rest

/-- Embedding of JS `haystack.includes(pat)`. -/
def strContains (haystack pat : String) : Bool :=
  strContainsAux pat.toList haystack.toList

/-- Embedding of JS `toLowerCase()` for the ASCII strings this code
compares, as a structurally recursive map so that concrete instances
evaluate. -/
def strToLower (s : String) : String :=
  ⟨s.data.map Char.toLower⟩

/-! ## Retry policy (src/worker/utils/retry.ts)

`retryWithBackoff` runs the wrapped action up to `maxAttempts` times,
sleeping `min(initialDelayMs * backoffMultiplier ^ (attempt - 1), maxDelayMs)`
between failed attempts.  The embedding returns the final outcome together
with the number of invocations of the action and the list of sleep
durations, so the retry *trace* is observable.  A JS `throw lastError`
with `lastError` still `undefined` (the loop body never ran) is the
`errUndefined` outcome. -/

/-- Outcome of `retryWithBackoff`: a value, a thrown error value, or a
thrown `undefined` (the JS `throw lastError` when no attempt ever ran). -/
inductive RetryResult (E : Type) (T : Type) where
  | ok : T → RetryResult E T
  | errVal : E → RetryResult E T
  | errUndefined : RetryResult E T
deriving DecidableEq

/-- Options record of retry.ts (`RetryOptions` merged over `DEFAULT_OPTIONS`).
`maxAttempts` is an Int because the JS loop `for (attempt = 1; attempt <=
maxAttempts; ...)` runs zero times for any non-positive value. -/
structure RetryOptions (E : Type) where
  maxAttempts : Int
  initialDelayMs : Nat
  maxDelayMs : Nat
  backoffMultiplier : Nat
  retryableErrors : E → Bool

/-- DEFAULT_OPTIONS of retry.ts: 3 attempts, 1000 ms initial delay,
10000 ms cap, factor 2, and `retryableErrors: () => true`
("Retry all errors by default"). -/
def defaultOptions {E : Type} : RetryOptions E :=
  { maxAttempts := 3
    initialDelayMs := 1000
    maxDelayMs := 10000
    backoffMultiplier := 2
    retryableErrors := fun _ => true }

/-- The retry loop of `retryWithBackoff`; `attempt` is the 1-based loop
counter and `fuel` the number of attempts still allowed.  Returns the
outcome, the number of invocations of `fn`, and the sleeps performed. -/
def retryGo {E T : Type} (fn : Nat → Except E T) (opts : RetryOptions E) :
    Nat → Nat → RetryResult E T × Nat × List Nat
  | _, 0 => (RetryResult.errUndefined, 0, [])
  | attempt, fuel + 1 =>
    match fn attempt with
    | Except.ok t => (RetryResult.ok t, 1, [])
    | Except.error e =>
      if opts.retryableErrors e = false then
        (RetryResult.errVal e, 1, [])
      else if fuel = 0 then
        (RetryResult.errVal e, 1, [])
      else
        let delay := min (opts.initialDelayMs * opts.backoffMultiplier ^ (attempt - 1))
          opts.maxDelayMs
        let rest := retryGo fn opts (attempt + 1) fuel
        (rest.1, rest.2.1 + 1, delay :: rest.2.2)

/-- Embedding of `retryWithBackoff(fn, opts)` as a trace: outcome,
invocation count, sleep durations. -/
def retryWithBackoff {E T : Type} (fn : Nat → Except E T) (opts : RetryOptions E) :
    RetryResult E T × Nat × List Nat :=
  retryGo fn opts 1 opts.maxAttempts.toNat

/-- Model of a thrown JS `Error` value: name, message, and the optional
`status` property attached by the workflow to HTTP failures. -/
structure JsError where
  name : String
  message : String
  status : Option Nat := none
deriving DecidableEq

/-- Embedding of `isRetryableError` of retry.ts: message-based network
checks first, then the HTTP-status check (5xx or 429). -/
def isRetryableError (e : JsError) : Bool :=
  let m := strToLower e.message
  if strContains m "network" || strContains m "timeout" ||
      strContains m "econnreset" || strContains m "enotfound" then
    true
  else
    match e.status with
    | some s => decide (500 ≤ s) || decide (s = 429)
    | none => false

/-! ## Error classifier (src/unnamed/part_009, utils/error-messages.ts)

`getUserFriendlyError` is a pure function from the error message (the JS
source uses `error instanceof Error ? error.message : String(error)`) to a
display triple; matching is on lowercased substrings, in source order. -/

/-- The display triple returned by the classifier. -/
structure UserFriendlyError where
  title : String
  message : String
  action : Option String := none
deriving DecidableEq

/-- Embedding of `getUserFriendlyError`, branch for branch in source
order. -/
def getUserFriendlyError (errorMessage : String) : UserFriendlyError :=
  let errorLower := strToLower errorMessage
  if strContains errorLower "radar api" then
    if strContains errorLower "401" || strContains errorLower "unauthorized" then
      { title := "Authentication Error"
        message := "Unable to connect to the scanning service. Please try again later."
        action := some "If this persists, contact support." }
    else if strContains errorLower "429" || strContains errorLower "rate limit" then
      { title := "Too Many Requests"
        message := "We\x27re receiving a high volume of scan requests right now."
        action := some "Please wait a few minutes and try again." }
    else if strContains errorLower "400" || strContains errorLower "bad request" then
      { title := "Invalid URL"
        message := "The URL you provided couldn\x27t be scanned."
        action := some "Please check the URL and try again." }
    else if strContains errorLower "timeout" then
      { title := "Scan Timeout"
        message := "The scan took longer than expected to complete."
        action := some "Please try scanning this URL again." }
    else
      { title := "Scanning Service Error"
        message := "We encountered an issue while scanning your URL."
        action := some "Please try again in a few moments." }
  else if strContains errorLower "network" || strContains errorLower "fetch" then
    { title := "Connection Error"
      message := "Unable to connect to our servers."
      action := some "Please check your internet connection and try again." }
  else if strContains errorLower "timeout" then
    { title := "Request Timeout"
      message := "The request took too long to complete."
      action := some "Please try again." }
  else if strContains errorLower "r2" || strContains errorLower "storage" then
    { title := "Storage Error"
      message := "We couldn\x27t save your scan report."
      action := some "Please try scanning again." }
  else if strContains errorLower "database" || strContains errorLower "d1" then
    { title := "Database Error"
      message := "We encountered an issue saving your scan data."
      action := some "Your scan may still complete. Please check back in a moment." }
  else if strContains errorLower "pdf" then
    { title := "Report Generation Error"
      message := "We couldn\x27t generate your PDF report."
      action := some "Please try scanning again." }
  else if strContains errorLower "workflow" then
    { title := "Processing Error"
      message := "We encountered an issue processing your scan."
      action := some "Please try again." }
  else if strContains errorLower "email" || strContains errorLower "resend" then
    { title := "Email Delivery Failed"
      message := "We couldn\x27t send the report to your email."
      action := some "You can still download the report from this page." }
  else
    { title := "Something Went Wrong"
      message := "We encountered an unexpected error."
      action := some "Please try again. If the problem persists, contact support." }

/-- The display string the workflow builds in its catch block:
`title: message` followed by the action when present
(src/unnamed/part_007 line 241). -/
def displayMessage (f : UserFriendlyError) : String :=
  f.title ++ ": " ++ f.message ++
    (match f.action with
     | some a => " " ++ a
     | none => "")

/-! ## Session coordinator (src/worker/types.ts, SessionManager durable object)

One `SessionManager` instance per session id owns an in-memory
`sessionData`, the durable-object storage copy of it, the set of live
WebSocket connections, and a best-effort D1 mirror row.  The embedding
carries all four in `DOState`; connections are identified by numeric ids,
the D1 mirror by the row it last stored.  D1 writes are wrapped in
try/catch in the source, so each handler takes a `d1Ok` flag saying
whether the mirror write succeeds; a failure is swallowed. -/

/-- The `status` union of `SessionState` in src/worker/types.ts. -/
inductive SessionStatus where
  | queued | scanning | generating | uploading | sending | completed | failed | expired
deriving DecidableEq

/-- Embedding of the `SessionState` record.  `progressPercent` and
`progressMessage` are not declared in the TS interface but are merged in
by the workflow's update posts (JS objects are open), so the model
carries them as optional fields. -/
structure SessionState where
  sessionId : String
  url : String
  email : String
  status : SessionStatus
  jobId : Option String := none
  radarUuid : Option String := none
  r2Key : Option String := none
  error : Option String := none
  createdAt : Nat
  updatedAt : Nat
  expiresAt : Nat
  ipAddress : Option String := none
  userAgent : Option String := none
  country : Option String := none
  progressPercent : Option Nat := none
  progressMessage : Option String := none
deriving DecidableEq

/-- A `Partial<SessionState>` as posted to `/update`: a field is `some v`
when the key is present in the JSON body. -/
structure SessionUpdate where
  sessionId : Option String := none
  url : Option String := none
  email : Option String := none
  status : Option SessionStatus := none
  jobId : Option String := none
  radarUuid : Option String := none
  r2Key : Option String := none
  error : Option String := none
  createdAt : Option Nat := none
  updatedAt : Option Nat := none
  expiresAt : Option Nat := none
  ipAddress : Option String := none
  userAgent : Option String := none
  country : Option String := none
  progressPercent : Option Nat := none
  progressMessage : Option String := none
deriving DecidableEq

/-- Merge of one optional-typed field under JS spread: a present key in
the partial replaces the stored value, an absent key keeps it. -/
def mergeOpt {α : Type} (upd cur : Option α) : Option α :=
  match upd with
  | some v => some v
  | none => cur

/-- The JS spread merge of handleUpdate:
`{...sessionData, ...update, updatedAt: Date.now()}` — every present key
of the partial overrides the stored field, and `updatedAt` is stamped
last with the current time. -/
def applyUpdate (s : SessionState) (u : SessionUpdate) (now : Nat) : SessionState :=
  { sessionId := u.sessionId.getD s.sessionId
    url := u.url.getD s.url
    email := u.email.getD s.email
    status := u.status.getD s.status
    jobId := mergeOpt u.jobId s.jobId
    radarUuid := mergeOpt u.radarUuid s.radarUuid
    r2Key := mergeOpt u.r2Key s.r2Key
    error := mergeOpt u.error s.error
    createdAt := u.createdAt.getD s.createdAt
    updatedAt := now
    expiresAt := u.expiresAt.getD s.expiresAt
    ipAddress := mergeOpt u.ipAddress s.ipAddress
    userAgent := mergeOpt u.userAgent s.userAgent
    country := mergeOpt u.country s.country
    progressPercent := mergeOpt u.progressPercent s.progressPercent
    progressMessage := mergeOpt u.progressMessage s.progressMessage }

/-- State of one SessionManager durable object: in-memory session, the
storage copy under the `sessionData` key, the live connection ids, the
D1 mirror row, and the scheduled alarm time. -/
structure DOState where
  sessionData : Option SessionState
  storage : Option SessionState
  connections : List Nat
  mirror : Option SessionState
  alarmAt : Option Nat
deriving DecidableEq

/-- Loading pattern shared by handleUpdate / handleGetState / alarm:
use the in-memory session, else `ctx.storage.get('sessionData')`. -/
def loadSession (st : DOState) : Option SessionState :=
  match st.sessionData with
  | some s => some s
  | none => st.storage

/-- Messages sent over a WebSocket or close events, as observable
effects of the handlers. -/
inductive WsEvent where
  | sentState (conn : Nat) (s : SessionState) (ts : Nat)
  | sentUpdate (conn : Nat) (u : SessionUpdate) (ts : Nat)
  | closed (conn : Nat) (code : Nat) (reason : String)
deriving DecidableEq

/-- Embedding of `persistToD1`: a no-op without a session; otherwise the
INSERT OR REPLACE of the current row, whose failure (`d1Ok = false`) is
caught and logged, never thrown. -/
def persistToD1 (st : DOState) (d1Ok : Bool) : DOState :=
  match st.sessionData with
  | none => st
  | some sd => if d1Ok then { st with mirror := some sd } else st

/-- Body of the `/init` JSON request (the fields handleInit reads). -/
structure InitData where
  sessionId : String
  url : String
  email : String
  ipAddress : Option String := none
  userAgent : Option String := none
  country : Option String := none
deriving DecidableEq

/-- The fresh record handleInit builds: status `queued`, timestamps at
`now`, expiry 24 hours later. -/
def initSession (d : InitData) (now : Nat) : SessionState :=
  { sessionId := d.sessionId
    url := d.url
    email := d.email
    status := SessionStatus.queued
    createdAt := now
    updatedAt := now
    expiresAt := now + 24 * 60 * 60 * 1000
    ipAddress := d.ipAddress
    userAgent := d.userAgent
    country := d.country }

/-- Embedding of `handleInit`: unconditionally overwrites
`sessionData`, persists to storage and (best-effort) D1, arms the
expiry alarm, and responds `{success: true}`. -/
def handleInit (st : DOState) (d : InitData) (now : Nat) (d1Ok : Bool) :
    DOState × Bool :=
  let sd := initSession d now
  let st1 := { st with sessionData := some sd, storage := some sd }
  let st2 := persistToD1 st1 d1Ok
  ({ st2 with alarmAt := some sd.expiresAt }, true)

/-- HTTP-ish response of `/update`: 200 OK or 404 Session not found. -/
inductive UpdateResp where
  | ok | notFound
deriving DecidableEq

/-- Embedding of `broadcast` for an update message: the payload goes to
every registered connection. -/
def broadcastUpdate (conns : List Nat) (u : SessionUpdate) (ts : Nat) : List WsEvent :=
  conns.map (fun c => WsEvent.sentUpdate c u ts)

/-- Embedding of `handleUpdate`: loads the session (404 when absent),
merges the partial with `applyUpdate`, persists to storage and
(best-effort) D1, then broadcasts `{type:'update', data: update}`. -/
def handleUpdate (st : DOState) (u : SessionUpdate) (now : Nat) (d1Ok : Bool) :
    DOState × UpdateResp × List WsEvent :=
  match loadSession st with
  | none => (st, UpdateResp.notFound, [])
  | some s =>
    let s2 := applyUpdate s u now
    let st1 := { st with sessionData := some s2, storage := some s2 }
    let st2 := persistToD1 st1 d1Ok
    (st2, UpdateResp.ok, broadcastUpdate st.connections u now)

/-- Embedding of `handleGetState`: loads into memory and returns the
session, or `none` for the 404 response. -/
def handleGetState (st : DOState) : DOState × Option SessionState :=
  let s := loadSession st
  ({ st with sessionData := s }, s)

/-- The D1 statement of the alarm handler:
`UPDATE sessions SET status = 'expired' WHERE id = ?`. -/
def markExpiredD1 (id : String) (mirror : Option SessionState) : Option SessionState :=
  mirror.map (fun r => if r.sessionId = id then { r with status := SessionStatus.expired } else r)

/-- Embedding of the `alarm` handler: when a session exists and
`now >= expiresAt`, closes every live connection with code 1000
("Session expired"), clears the connection set, marks the D1 row
expired (best-effort), deletes all durable storage and drops the
in-memory session. -/
def alarm (st : DOState) (now : Nat) (d1Ok : Bool) : DOState × List WsEvent :=
  match loadSession st with
  | none => (st, [])
  | some sd =>
    if sd.expiresAt ≤ now then
      ({ sessionData := none
         storage := none
         connections := []
         mirror := if d1Ok then markExpiredD1 sd.sessionId st.mirror else st.mirror
         alarmAt := st.alarmAt },
       st.connections.map (fun c => WsEvent.closed c 1000 "Session expired"))
    else
      ({ st with sessionData := some sd }, [])

/-- A sequence of `/update` posts, each with its wall-clock time, run
through handleUpdate in order (the per-object serialization of the
durable object makes the sequential model exact). -/
def runUpdates (st : DOState) (us : List (SessionUpdate × Nat)) (d1Ok : Bool) : DOState :=
  us.foldl (fun acc p => (handleUpdate acc p.1 p.2 d1Ok).1) st

/-- Spec-side merge for the refinement claim of spec section 8: the
field-wise merge of an initial record with all applied partials in
order, each stamping `updatedAt`. -/
def specMergeAll (s : SessionState) (us : List (SessionUpdate × Nat)) : SessionState :=
  us.foldl (fun acc p => applyUpdate acc p.1 p.2) s

/-- The successive stored states produced by a sequence of updates. -/
def mergeStates (s : SessionState) : List (SessionUpdate × Nat) → List SessionState
  | [] => []
  | p :: rest =>
    let s1 := applyUpdate s p.1 p.2
    s1 :: mergeStates s1 rest

/-! ## Scan workflow (src/unnamed/part_007, ScanWorkflow.run)

The result-poll loop (lines 103-153) makes up to 40 requests against the
radar result endpoint; HTTP 200 returns the result, HTTP 404 means "not
ready yet" and sleeps (5 s for 0-based attempts 0-4, 10 s for 5-14,
15 s after, with no sleep after the last attempt), and any other status
throws.  The loop models the poll calls and sleeps; the advisory
progress posts inside the loop touch no control flow and are elided.
The submit step (lines 48-84) wraps the radar POST in `retryWithBackoff`
with `isRetryableError`, attaching the HTTP status to the thrown error;
the catch block (lines 235-257) classifies the error and posts
`{status:'failed', error: displayMessage}`. -/

/-- One response of the radar result endpoint, as the loop branches on
it: HTTP 200 with a body, HTTP 404, or any other status with its error
text. -/
inductive PollResp (R : Type) where
  | ready : R → PollResp R
  | notReady : PollResp R
  | other : Nat → String → PollResp R

/-- The error text built for a non-200, non-404 radar response (and for
the submit step's non-ok response). -/
def radarApiErrorMessage (s : Nat) (b : String) : String :=
  "Radar API error (" ++ toString s ++ "): " ++ b

/-- Poll-interval choice of the loop body for a 0-based attempt index:
`'5 seconds'` under 5, `'10 seconds'` under 15, else `'15 seconds'`. -/
def pollSleepSeconds (attempt : Nat) : Nat :=
  if attempt < 5 then 5 else if attempt < 15 then 10 else 15

/-- The poll loop: `attempt` is the 0-based loop counter and `fuel` the
remaining iterations out of 40.  Returns the outcome (result or thrown
error message), the number of poll requests made, and the sleeps (in
seconds) performed. -/
def pollGo {R : Type} (poll : Nat → PollResp R) :
    Nat → Nat → Except String R × Nat × List Nat
  | _, 0 => (Except.error "Scan timeout after 10 minutes", 0, [])
  | attempt, fuel + 1 =>
    match poll attempt with
    | PollResp.ready r => (Except.ok r, 1, [])
    | PollResp.other s b => (Except.error (radarApiErrorMessage s b), 1, [])
    | PollResp.notReady =>
      let sl := if fuel = 0 then [] else [pollSleepSeconds attempt]
      let rest := pollGo poll (attempt + 1) fuel
      (rest.1, rest.2.1 + 1, sl ++ rest.2.2)

/-- Embedding of the `poll for scan results` step: the loop starts at
attempt 0 with `maxAttempts = 40`, and exhausting the budget throws the
timeout error. -/
def pollForScanResults {R : Type} (poll : Nat → PollResp R) :
    Except String R × Nat × List Nat :=
  pollGo poll 0 40

/-- The sleep schedule of a fully not-ready poll run: 39 sleeps (none
after the final attempt), 5 s for the first five, 10 s for the next ten,
15 s for the rest. -/
def pollTimeoutSleeps : List Nat :=
  (List.range 39).map pollSleepSeconds

/-- Minimal model of the radar submit response body (only `uuid` is used
downstream). -/
structure RadarScanResponseM where
  uuid : String
deriving DecidableEq

/-- Retry options of the `submit to radar api` step: 3 attempts, 2 s
initial delay, 10 s cap, `isRetryableError` as the predicate. -/
def submitOpts : RetryOptions JsError :=
  { maxAttempts := 3
    initialDelayMs := 2000
    maxDelayMs := 10000
    backoffMultiplier := 2
    retryableErrors := isRetryableError }

/-- The error thrown by the submit action when the radar POST answers a
non-ok status: an `Error` whose message embeds status and body, with the
`status` property attached. -/
def radarHttpError (s : Nat) (b : String) : JsError :=
  { name := "Error", message := radarApiErrorMessage s b, status := some s }

/-- The submit step against a service that answers HTTP 500 with body
`b` on every call, as a retry trace. -/
def submitTrace (b : String) : RetryResult JsError RadarScanResponseM × Nat × List Nat :=
  retryWithBackoff (fun _ => Except.error (radarHttpError 500 b)) submitOpts

/-- The `/update` body posted by the workflow's catch block: status
`failed` and the classified display string of the caught error. -/
def markFailedUpdate (e : JsError) : SessionUpdate :=
  { status := some SessionStatus.failed
    error := some (displayMessage (getUserFriendlyError e.message)) }

/-- The fixed scanning-service display string (title, message and
suggested action of the classifier's radar-api fallback branch). -/
def scanningServiceDisplay : String :=
  "Scanning Service Error: We encountered an issue while scanning your URL. Please try again in a few moments."

/-- A completed session used to exercise the coordinator's update path. -/
def cexSession : SessionState :=
  { sessionId := "s1"
    url := "https://example.com"
    email := "user@example.com"
    status := SessionStatus.completed
    r2Key := some "sessions/s1/report.pdf"
    createdAt := 0
    updatedAt := 500
    expiresAt := 86400000
    progressPercent := some 100 }
/-- Coordinator state holding `cexSession` with no live connections. -/
def cexDO : DOState :=
  { sessionData := some cexSession
    storage := some cexSession
    connections := []
    mirror := some cexSession
    alarmAt := some 86400000 }
/-- An existing session whose immutable fields conflict with a later
init call. -/
def initCexSession : SessionState :=
  { sessionId := "s1"
    url := "https://a.example"
    email := "old@example.com"
    status := SessionStatus.scanning
    createdAt := 0
    updatedAt := 10
    expiresAt := 86400000 }
/-- Coordinator state holding `initCexSession`. -/
def initCexDO : DOState :=
  { sessionData := some initCexSession
    storage := some initCexSession
    connections := []
    mirror := some initCexSession
    alarmAt := some 86400000 }
/-- A second init body for the same id with a different target URL and
notify address. -/
def initCexData : InitData :=
  { sessionId := "s1"
    url := "https://b.example"
    email := "new@example.com" }


/-- A completed session with two live connections, used to exercise the
expiry alarm. -/
def alarmCexSession : SessionState :=
  { sessionId := "s2"
    url := "https://example.com"
    email := "user@example.com"
    status := SessionStatus.completed
    r2Key := some "sessions/s2/report.pdf"
    createdAt := 0
    updatedAt := 100
    expiresAt := 86400000 }

/-- Coordinator state holding `alarmCexSession` with connections 1 and 2. -/
def alarmCexDO : DOState :=
  { sessionData := some alarmCexSession
    storage := some alarmCexSession
    connections := [1, 2]
    mirror := some alarmCexSession
    alarmAt := some 86400000 }

/-- A fresh queued session used to exercise a sequence of updates. -/
def mergeCexSession : SessionState :=
  { sessionId := "s3"
    url := "https://example.com"
    email := "user@example.com"
    status := SessionStatus.queued
    createdAt := 0
    updatedAt := 0
    expiresAt := 86400000 }

/-- Coordinator state holding `mergeCexSession`. -/
def mergeCexDO : DOState :=
  { sessionData := some mergeCexSession
    storage := some mergeCexSession
    connections := []
    mirror := some mergeCexSession
    alarmAt := some 86400000 }

/-- Two workflow-style updates with increasing timestamps. -/
def mergeCexUpdates : List (SessionUpdate × Nat) :=
  [({ status := some SessionStatus.scanning, radarUuid := some "uuid-1",
      progressPercent := some 15 }, 50),
   ({ status := some SessionStatus.generating, progressPercent := some 70 }, 120)]

/-! ## Lemmas about the retry loop -/

/-- One unfolding step of the retry loop when fuel remains. -/
theorem retryGo_step {E T : Type} (fn : Nat → Except E T) (o : RetryOptions E)
    (attempt fuel : Nat) :
    retryGo fn o attempt (fuel + 1) =
      match fn attempt with
      | Except.ok t => (RetryResult.ok t, 1, [])
      | Except.error e =>
        if o.retryableErrors e = false then (RetryResult.errVal e, 1, [])
        else if fuel = 0 then (RetryResult.errVal e, 1, [])
        else
          ((retryGo fn o (attempt + 1) fuel).1,
            (retryGo fn o (attempt + 1) fuel).2.1 + 1,
            min (o.initialDelayMs * o.backoffMultiplier ^ (attempt - 1)) o.maxDelayMs ::
              (retryGo fn o (attempt + 1) fuel).2.2) := rfl

/-- On an always-failing action with an always-retryable error, the
retry loop runs its whole fuel, sleeps the capped exponential schedule
between attempts (none after the last), and ends with the last error. -/
theorem retryGo_allFail {E T : Type} (g : Nat → E) (o : RetryOptions E)
    (hr : ∀ k, o.retryableErrors (g k) = true) :
    ∀ fuel attempt, 1 ≤ fuel → 1 ≤ attempt →
      @retryGo E T (fun k => Except.error (g k)) o attempt fuel =
        (RetryResult.errVal (g (attempt + fuel - 1)), fuel,
          (List.range (fuel - 1)).map
            (fun k => min (o.initialDelayMs * o.backoffMultiplier ^ (attempt - 1 + k))
              o.maxDelayMs)) := by
  intro fuel
  induction fuel with
  | zero => intro attempt h hatt; exact absurd h (by omega)
  | succ f ih =>
    intro attempt _ hatt
    cases f with
    | zero =>
      simp [retryGo, hr attempt]
    | succ fg =>
      have hrec := ih (attempt + 1) (by omega) (by omega)
      rw [retryGo_step]
      dsimp only
      rw [hrec, hr attempt]
      rw [if_neg (by simp), if_neg (Nat.succ_ne_zero fg)]
      have h1 : attempt + 1 + (fg + 1) - 1 = attempt + (fg + 1 + 1) - 1 := by omega
      rw [h1, show fg + 1 + 1 - 1 = fg + 1 from rfl, List.range_succ_eq_map,
        List.map_cons, List.map_map, show fg + 1 - 1 = fg from rfl]
      refine congrArg _ (congrArg _ ?_)
      congr 1
      apply List.map_congr_left
      intro k _
      have hx : attempt - 1 + (k + 1) = attempt + k := by omega
      simp [Function.comp, hx]

/-- C5: for an always-failing action under an always-true retryability
predicate with `maxAttempts = n ≥ 1`, `retryWithBackoff` invokes the
action exactly `n` times, sleeps
`min(initialDelay * backoffFactor ^ (k - 1), maxDelay)` after the k-th
failed attempt for each `k < n` (the k-th entry of the sleep list), does
not sleep after the final attempt (the list has `n - 1` entries), and
fails with the error of the final (n-th) attempt. -/
theorem retry_always_fail_policy {E T : Type} (g : Nat → E) (d x m n : Nat)
    (hn : 1 ≤ n) :
    @retryWithBackoff E T (fun k => Except.error (g k))
        { maxAttempts := (n : Int), initialDelayMs := d, maxDelayMs := x,
          backoffMultiplier := m, retryableErrors := fun _ => true } =
      (RetryResult.errVal (g n), n,
        (List.range (n - 1)).map (fun k => min (d * m ^ k) x)) := by
  unfold retryWithBackoff
  rw [show ((n : Int)).toNat = n from Int.toNat_natCast n]
  have h := retryGo_allFail (T := T) g
    { maxAttempts := (n : Int), initialDelayMs := d, maxDelayMs := x,
      backoffMultiplier := m, retryableErrors := fun _ => true }
    (fun _ => rfl) n 1 hn (le_refl 1)
  simpa using h

/-- Witness for retry_always_fail_policy at the claim's concrete
instance: maxAttempts 3, initial delay 100 ms, factor 2 gives exactly 3
attempts with sleeps 100 ms then 200 ms. -/
theorem retry_always_fail_policy_witness :
    (1 ≤ 3) ∧
      @retryWithBackoff Nat Unit (fun k => Except.error k)
          { maxAttempts := ((3 : Nat) : Int), initialDelayMs := 100, maxDelayMs := 10000,
            backoffMultiplier := 2, retryableErrors := fun _ => true } =
        (RetryResult.errVal 3, 3, [100, 200]) := by
  refine ⟨by norm_num, ?_⟩
  have h := @retry_always_fail_policy Nat Unit (fun k => k) 100 10000 2 3 (by norm_num)
  have h2 : (List.range (3 - 1)).map (fun k => min (100 * 2 ^ k) 10000) = [100, 200] := by
    decide
  rw [h2] at h
  exact h

/-- C10: calling `retryWithBackoff` with `maxAttempts ≤ 0` never invokes
the wrapped action (the invocation count is 0 whatever the action is)
and fails by throwing the still-undefined `lastError` — a non-Error
value — rather than returning a result or a meaningful error. -/
theorem retry_nonpositive_attempts {E T : Type} (f : Nat → Except E T)
    (o : RetryOptions E) (h : o.maxAttempts ≤ 0) :
    retryWithBackoff f o = (RetryResult.errUndefined, 0, []) := by
  unfold retryWithBackoff
  rw [Int.toNat_of_nonpos h]
  rfl

/-- Witness for retry_nonpositive_attempts at maxAttempts = -2. -/
theorem retry_nonpositive_attempts_witness :
    ((-2 : Int) ≤ 0) ∧
      @retryWithBackoff Unit Unit (fun _ => Except.ok ())
          { maxAttempts := -2, initialDelayMs := 5, maxDelayMs := 9,
            backoffMultiplier := 2, retryableErrors := fun _ => true } =
        (RetryResult.errUndefined, 0, []) :=
  ⟨by decide, retry_nonpositive_attempts _ _ (by decide)⟩

/-- C6 counterexample: with the predicate omitted, `DEFAULT_OPTIONS`
supplies `retryableErrors: () => true`, so an action failing with an
error outside the network/5xx/429 classes (here an `Error` with message
"boom" and no status, which `isRetryableError` rejects) is still
attempted 3 times — not once, as the claim states. -/
theorem retry_default_counterexample :
    isRetryableError { name := "Error", message := "boom" } = false ∧
      (@defaultOptions JsError).retryableErrors { name := "Error", message := "boom" } = true ∧
      (@retryWithBackoff JsError Unit
          (fun _ => Except.error { name := "Error", message := "boom" })
          defaultOptions).2.1 = 3 := by
  refine ⟨by decide, rfl, rfl⟩

/-- C6 amended: when the retryability predicate is omitted, the default
predicate of `DEFAULT_OPTIONS` treats *every* error as retryable, so any
always-failing action — whatever the class of its error — runs the
default 3 attempts (sleeping 1000 ms then 2000 ms) and fails with the
final error; the network/5xx/429 classification lives in the separate
`isRetryableError` helper, which applies only where call sites pass it
explicitly. -/
theorem retry_default_retries_all {E T : Type} (g : Nat → E) :
    (∀ e : E, (@defaultOptions E).retryableErrors e = true) ∧
      @retryWithBackoff E T (fun k => Except.error (g k)) defaultOptions =
        (RetryResult.errVal (g 3), 3, [1000, 2000]) := by
  refine ⟨fun _ => rfl, ?_⟩
  have h := retryGo_allFail (T := T) g (@defaultOptions E) (fun _ => rfl) 3 1
    (by norm_num) (le_refl 1)
  unfold retryWithBackoff
  rw [show (@defaultOptions E).maxAttempts.toNat = 3 from rfl, h]
  simp [defaultOptions, List.range_succ]

/-! ## Lemmas about the poll loop -/

/-- Reindexing of a sleep schedule shifted by one attempt. -/
theorem map_shift_succ (h : Nat → Nat) (a g : Nat) :
    List.map (fun i => h (a + 1 + i)) (List.range g) =
      List.map ((fun i => h (a + i)) ∘ Nat.succ) (List.range g) := by
  apply List.map_congr_left
  intro k _
  have hx : a + 1 + k = a + Nat.succ k := by omega
  simp [Function.comp, hx]

/-- One unfolding step of the poll loop when fuel remains. -/
theorem pollGo_step {R : Type} (poll : Nat → PollResp R) (a fuel : Nat) :
    pollGo poll a (fuel + 1) =
      match poll a with
      | PollResp.ready r => (Except.ok r, 1, [])
      | PollResp.other s b => (Except.error (radarApiErrorMessage s b), 1, [])
      | PollResp.notReady =>
        ((pollGo poll (a + 1) fuel).1,
          (pollGo poll (a + 1) fuel).2.1 + 1,
          (if fuel = 0 then [] else [pollSleepSeconds a]) ++ (pollGo poll (a + 1) fuel).2.2) :=
  rfl

/-- The poll loop never makes more requests than it has fuel. -/
theorem pollGo_count_le {R : Type} (poll : Nat → PollResp R) :
    ∀ fuel a, (pollGo poll a fuel).2.1 ≤ fuel := by
  intro fuel
  induction fuel with
  | zero => intro a; simp [pollGo]
  | succ f ih =>
    intro a
    rw [pollGo_step]
    cases hp : poll a with
    | ready r => simp
    | other s b => simp
    | notReady =>
      have := ih (a + 1)
      simp only []
      omega

/-- A run of only not-ready responses exhausts the fuel, sleeping the
escalating schedule after every attempt but the last, and ends in the
timeout error. -/
theorem pollGo_allNotReady {R : Type} (poll : Nat → PollResp R) :
    ∀ fuel a, (∀ j, a ≤ j → j < a + fuel → poll j = PollResp.notReady) →
      pollGo poll a fuel =
        (Except.error "Scan timeout after 10 minutes", fuel,
          (List.range (fuel - 1)).map (fun i => pollSleepSeconds (a + i))) := by
  intro fuel
  induction fuel with
  | zero => intro a _; simp [pollGo]
  | succ f ih =>
    intro a hnr
    rw [pollGo_step, hnr a (le_refl a) (by omega)]
    have hrec := ih (a + 1) (fun j h1 h2 => hnr j (by omega) (by omega))
    rw [hrec]
    cases f with
    | zero => simp
    | succ g =>
      rw [if_neg (Nat.succ_ne_zero g)]
      rw [show g + 1 + 1 - 1 = g + 1 from rfl, show g + 1 - 1 = g from rfl,
        List.range_succ_eq_map, List.map_cons, List.map_map]
      refine congrArg _ (congrArg _ ?_)
      rw [List.singleton_append]
      congr 1
      exact map_shift_succ pollSleepSeconds a g

/-- A run of `m` not-ready responses followed by a non-200, non-404
response aborts with that radar error after exactly `m + 1` requests. -/
theorem pollGo_otherAborts {R : Type} (poll : Nat → PollResp R) (s : Nat) (b : String) :
    ∀ m a fuel, m < fuel → (∀ j, j < m → poll (a + j) = PollResp.notReady) →
      poll (a + m) = PollResp.other s b →
      pollGo poll a fuel =
        (Except.error (radarApiErrorMessage s b), m + 1,
          (List.range m).map (fun i => pollSleepSeconds (a + i))) := by
  intro m
  induction m with
  | zero =>
    intro a fuel hf hn ho
    cases fuel with
    | zero => exact absurd hf (by omega)
    | succ f =>
      rw [pollGo_step]
      rw [show a + 0 = a from rfl] at ho
      rw [ho]
      simp
  | succ k ih =>
    intro a fuel hf hnr ho
    cases fuel with
    | zero => exact absurd hf (by omega)
    | succ f =>
      have h0 : poll a = PollResp.notReady := by
        have := hnr 0 (by omega)
        simpa using this
      rw [pollGo_step, h0]
      have hrec := ih (a + 1) f (by omega)
        (fun j hj => by
          have := hnr (j + 1) (by omega)
          rw [show a + (j + 1) = a + 1 + j from by omega] at this
          exact this)
        (by rw [show a + 1 + k = a + (k + 1) from by omega]; exact ho)
      rw [hrec]
      rw [if_neg (show ¬ f = 0 from by omega)]
      rw [List.range_succ_eq_map, List.map_cons, List.map_map]
      refine congrArg _ (congrArg _ ?_)
      rw [List.singleton_append]
      congr 1
      exact map_shift_succ pollSleepSeconds a k

/-- C4: the result-poll loop makes at most 40 requests; when every
response up to the 41st would be not-ready it runs exactly 40 attempts,
sleeps the escalating 5 s / 10 s / 15 s schedule between them (5 s after
attempts 1-5, 10 s after 6-15, 15 s thereafter, 39 sleeps in all, none
after the final attempt) and fails with the timeout error — in
particular no 41st or 42nd call is made; and a response that is neither
success nor not-ready aborts the loop at once with the radar error after
`k + 1` requests. -/
theorem workflow_poll_policy {R : Type} :
    (∀ poll : Nat → PollResp R, (pollForScanResults poll).2.1 ≤ 40) ∧
      (∀ poll : Nat → PollResp R, (∀ k, k < 41 → poll k = PollResp.notReady) →
        pollForScanResults poll =
          (Except.error "Scan timeout after 10 minutes", 40, pollTimeoutSleeps)) ∧
      (∀ (poll : Nat → PollResp R) (k s : Nat) (b : String), k < 40 →
        (∀ j, j < k → poll j = PollResp.notReady) → poll k = PollResp.other s b →
        (pollForScanResults poll).1 = Except.error (radarApiErrorMessage s b) ∧
          (pollForScanResults poll).2.1 = k + 1) := by
  refine ⟨fun poll => pollGo_count_le poll 40 0, fun poll hnr => ?_, fun poll k s b hk hnr ho => ?_⟩
  · have h := pollGo_allNotReady poll 40 0 (fun j h1 h2 => hnr j (by omega))
    unfold pollForScanResults
    rw [h]
    unfold pollTimeoutSleeps
    simp
  · have h := pollGo_otherAborts poll s b k 0 40 hk
      (fun j hj => by simpa using hnr j hj) (by simpa using ho)
    unfold pollForScanResults
    rw [h]
    exact ⟨rfl, rfl⟩

/-- Witness for workflow_poll_policy: an always-not-ready result service
yields the timeout failure after exactly 40 calls with the full 39-sleep
schedule. -/
theorem workflow_poll_policy_witness :
    pollForScanResults (fun _ => (PollResp.notReady : PollResp Unit)) =
      (Except.error "Scan timeout after 10 minutes", 40, pollTimeoutSleeps) :=
  (workflow_poll_policy.2.1) (fun _ => PollResp.notReady) (fun _ _ => rfl)

/-- An error carrying HTTP status 500 is always retryable: the
message-based branch returns true when it fires, and the status branch
returns true for 500 otherwise. -/
theorem isRetryable_status500 (nm m : String) :
    isRetryableError { name := nm, message := m, status := some 500 } = true := by
  unfold isRetryableError
  dsimp only
  split
  · rfl
  · rfl

/-- A radar-api message that matches none of the 401/429/400/timeout
special cases classifies to the scanning-service fallback triple. -/
theorem classify_radar_fallback (msg : String)
    (hra : strContains (strToLower msg) "radar api" = true)
    (h1 : strContains (strToLower msg) "401" = false)
    (h2 : strContains (strToLower msg) "unauthorized" = false)
    (h3 : strContains (strToLower msg) "429" = false)
    (h4 : strContains (strToLower msg) "rate limit" = false)
    (h5 : strContains (strToLower msg) "400" = false)
    (h6 : strContains (strToLower msg) "bad request" = false)
    (h7 : strContains (strToLower msg) "timeout" = false) :
    getUserFriendlyError msg =
      { title := "Scanning Service Error"
        message := "We encountered an issue while scanning your URL."
        action := some "Please try again in a few moments." } := by
  unfold getUserFriendlyError
  simp [hra, h1, h2, h3, h4, h5, h6, h7]

/-- C7: against a submission service that always answers HTTP 500 (body
`b` free of the classifier's special-case substrings), the workflow's
submit step performs exactly 3 attempts (sleeping 2000 ms then 4000 ms)
and fails with the final 500 error, and the catch block then posts
status `failed` with the error set to the classifier's fixed
scanning-service display string — a constant independent of the raw 500
body — so the merged session status is `failed`. -/
theorem workflow_submit_500 (b : String)
    (hra : strContains (strToLower (radarApiErrorMessage 500 b)) "radar api" = true)
    (h1 : strContains (strToLower (radarApiErrorMessage 500 b)) "401" = false)
    (h2 : strContains (strToLower (radarApiErrorMessage 500 b)) "unauthorized" = false)
    (h3 : strContains (strToLower (radarApiErrorMessage 500 b)) "429" = false)
    (h4 : strContains (strToLower (radarApiErrorMessage 500 b)) "rate limit" = false)
    (h5 : strContains (strToLower (radarApiErrorMessage 500 b)) "400" = false)
    (h6 : strContains (strToLower (radarApiErrorMessage 500 b)) "bad request" = false)
    (h7 : strContains (strToLower (radarApiErrorMessage 500 b)) "timeout" = false) :
    submitTrace b =
      (RetryResult.errVal (radarHttpError 500 b), 3, [2000, 4000]) ∧
      markFailedUpdate (radarHttpError 500 b) =
        { status := some SessionStatus.failed, error := some scanningServiceDisplay } ∧
      (∀ (s : SessionState) (now : Nat),
        (applyUpdate s (markFailedUpdate (radarHttpError 500 b)) now).status =
          SessionStatus.failed) := by
  refine ⟨?_, ?_, ?_⟩
  · have h := retryGo_allFail (T := RadarScanResponseM) (fun _ => radarHttpError 500 b)
      submitOpts (fun _ => isRetryable_status500 _ _) 3 1 (by norm_num) (le_refl 1)
    unfold submitTrace retryWithBackoff
    rw [show submitOpts.maxAttempts.toNat = 3 from rfl, h]
    simp [submitOpts, List.range_succ]
  · unfold markFailedUpdate
    rw [show (radarHttpError 500 b).message = radarApiErrorMessage 500 b from rfl,
      classify_radar_fallback (radarApiErrorMessage 500 b) hra h1 h2 h3 h4 h5 h6 h7]
    rfl
  · intro s now
    unfold markFailedUpdate applyUpdate
    rfl

/-- Witness for workflow_submit_500 with body "Internal Server Error":
3 attempts, failed status, the fixed scanning-service display string,
which does not contain the body text. -/
theorem workflow_submit_500_witness :
    strContains (strToLower (radarApiErrorMessage 500 "Internal Server Error"))
        "radar api" = true ∧
      submitTrace "Internal Server Error" =
        (RetryResult.errVal (radarHttpError 500 "Internal Server Error"), 3, [2000, 4000]) ∧
      markFailedUpdate (radarHttpError 500 "Internal Server Error") =
        { status := some SessionStatus.failed, error := some scanningServiceDisplay } ∧
      strContains scanningServiceDisplay "Internal Server Error" = false := by
  have h := workflow_submit_500 "Internal Server Error" (by decide) (by decide) (by decide)
    (by decide) (by decide) (by decide) (by decide) (by decide)
  exact ⟨by decide, h.1, h.2.1, by decide⟩

/-! ## Lemmas about the session coordinator -/

/-- A D1 write, successful or failed, changes nothing outside the
mirror: the try/catch in persistToD1 swallows the failure. -/
theorem persistToD1_components (st : DOState) (k : Bool) :
    (persistToD1 st k).sessionData = st.sessionData ∧
      (persistToD1 st k).storage = st.storage ∧
      (persistToD1 st k).connections = st.connections ∧
      (persistToD1 st k).alarmAt = st.alarmAt := by
  unfold persistToD1
  cases h : st.sessionData with
  | none => exact ⟨h, rfl, rfl, rfl⟩
  | some sd =>
    cases k with
    | false => exact ⟨h, rfl, rfl, rfl⟩
    | true => exact ⟨rfl, rfl, rfl, rfl⟩

/-- The in-memory session after a D1 write is unchanged. -/
theorem persistToD1_sessionData (st : DOState) (k : Bool) :
    (persistToD1 st k).sessionData = st.sessionData :=
  (persistToD1_components st k).1



/-- C1 counterexample: handleUpdate performs no state-machine check, so
an update posting `status: 'queued'` against a `completed` session is
accepted (200 OK) and moves the stored status back to the non-terminal
`queued` — the transition-table invariant fails at this input. -/
theorem session_transition_counterexample :
    cexSession.status = SessionStatus.completed ∧
      (handleUpdate cexDO { status := some SessionStatus.queued } 600 true).2.1 =
        UpdateResp.ok ∧
      ((handleUpdate cexDO { status := some SessionStatus.queued } 600 true).1.sessionData.map
        SessionState.status) = some SessionStatus.queued :=
  ⟨rfl, rfl, rfl⟩

/-- C1 amended: the coordinator does not validate status transitions —
`handleUpdate` merges any partial over any existing session and accepts
it, so the stored status after an accepted update is exactly whatever
status the partial names, including a non-terminal status written over a
terminal one; the transition table of the spec is respected only insofar
as the workflow, the sole writer, issues transitions along its edges. -/
theorem session_update_unvalidated (st : DOState) (s : SessionState) (u : SessionUpdate)
    (σ : SessionStatus) (now : Nat) (k : Bool)
    (hl : loadSession st = some s) (hσ : u.status = some σ) :
    (handleUpdate st u now k).2.1 = UpdateResp.ok ∧
      (handleUpdate st u now k).1.sessionData = some (applyUpdate s u now) ∧
      (applyUpdate s u now).status = σ := by
  unfold handleUpdate
  rw [hl]
  refine ⟨rfl, ?_, ?_⟩
  · exact persistToD1_sessionData _ k
  · unfold applyUpdate
    rw [hσ]
    rfl

/-- Witness for session_update_unvalidated: the completed `cexSession`
accepts a `queued` update. -/
theorem session_update_unvalidated_witness :
    loadSession cexDO = some cexSession ∧
      ({ status := some SessionStatus.queued } : SessionUpdate).status =
        some SessionStatus.queued ∧
      (handleUpdate cexDO { status := some SessionStatus.queued } 600 true).2.1 =
        UpdateResp.ok ∧
      (handleUpdate cexDO { status := some SessionStatus.queued } 600 true).1.sessionData =
        some (applyUpdate cexSession { status := some SessionStatus.queued } 600) ∧
      (applyUpdate cexSession { status := some SessionStatus.queued } 600).status =
        SessionStatus.queued := by
  have h := session_update_unvalidated cexDO cexSession
    { status := some SessionStatus.queued } SessionStatus.queued 600 true rfl rfl
  exact ⟨rfl, rfl, h.1, h.2.1, h.2.2⟩




/-- C8 counterexample: handleInit never inspects existing state, so a
second init for the same id with a conflicting url/email succeeds
(`{success: true}`) and silently overwrites the session instead of
failing. -/
theorem session_init_conflict_counterexample :
    initCexDO.sessionData = some initCexSession ∧
      initCexSession.url = "https://a.example" ∧
      initCexData.url = "https://b.example" ∧
      (handleInit initCexDO initCexData 999 true).2 = true ∧
      ((handleInit initCexDO initCexData 999 true).1.sessionData.map SessionState.url) =
        some "https://b.example" :=
  ⟨rfl, rfl, rfl, rfl, rfl⟩

/-- C8 amended: a second init call for the same id — conflicting
immutable fields or not — does not fail: handleInit unconditionally
replaces the session with a fresh `queued` record built from the new
fields, restamps createdAt/updatedAt, and re-arms the 24-hour expiry
alarm. -/
theorem session_init_overwrites (st : DOState) (d : InitData) (now : Nat) (k : Bool) :
    (handleInit st d now k).2 = true ∧
      (handleInit st d now k).1.sessionData = some (initSession d now) ∧
      (initSession d now).status = SessionStatus.queued ∧
      (handleInit st d now k).1.alarmAt = some (now + 24 * 60 * 60 * 1000) := by
  refine ⟨rfl, ?_, rfl, rfl⟩
  unfold handleInit
  exact persistToD1_sessionData _ k

/-- C9: a failed D1 mirror write during init or update is invisible to
the caller: with the write failing (`false`) or succeeding (`true`), the
handler's response, the in-memory and durable session state, the
connection set, the broadcast events and the armed alarm are identical —
only the mirror differs. -/
theorem d1_failure_isolated (st : DOState) (u : SessionUpdate) (d : InitData) (now : Nat) :
    ((handleUpdate st u now false).2 = (handleUpdate st u now true).2 ∧
      (handleUpdate st u now false).1.sessionData = (handleUpdate st u now true).1.sessionData ∧
      (handleUpdate st u now false).1.storage = (handleUpdate st u now true).1.storage ∧
      (handleUpdate st u now false).1.connections = (handleUpdate st u now true).1.connections) ∧
      ((handleInit st d now false).2 = (handleInit st d now true).2 ∧
        (handleInit st d now false).1.sessionData = (handleInit st d now true).1.sessionData ∧
        (handleInit st d now false).1.storage = (handleInit st d now true).1.storage ∧
        (handleInit st d now false).1.alarmAt = (handleInit st d now true).1.alarmAt) := by
  constructor
  · unfold handleUpdate
    cases hl : loadSession st with
    | none => exact ⟨rfl, rfl, rfl, rfl⟩
    | some s =>
      refine ⟨rfl, ?_, ?_, ?_⟩
      · rw [persistToD1_sessionData _ false, persistToD1_sessionData _ true]
      · rw [(persistToD1_components _ false).2.1, (persistToD1_components _ true).2.1]
      · rw [(persistToD1_components _ false).2.2.1, (persistToD1_components _ true).2.2.1]
  · unfold handleInit
    refine ⟨rfl, ?_, ?_, rfl⟩
    · rw [persistToD1_sessionData _ false, persistToD1_sessionData _ true]
    · rw [(persistToD1_components _ false).2.1, (persistToD1_components _ true).2.1]

/-- C3: when the alarm fires with a session present (whatever its
status, `completed` included) and `now ≥ expiresAt`, every live
connection receives a close with the normal code 1000, the D1 mirror
row is marked expired, all durable and in-memory state is cleared, and
a subsequent getState returns NotFound. -/
theorem alarm_teardown (st : DOState) (sd : SessionState) (now : Nat)
    (hl : loadSession st = some sd) (hexp : sd.expiresAt ≤ now) :
    (alarm st now true).2 =
        st.connections.map (fun c => WsEvent.closed c 1000 "Session expired") ∧
      (∀ c ∈ st.connections, WsEvent.closed c 1000 "Session expired" ∈ (alarm st now true).2) ∧
      (alarm st now true).1.mirror = markExpiredD1 sd.sessionId st.mirror ∧
      (alarm st now true).1.sessionData = none ∧
      (alarm st now true).1.storage = none ∧
      (alarm st now true).1.connections = [] ∧
      (handleGetState (alarm st now true).1).2 = none := by
  unfold alarm
  rw [hl]
  dsimp only
  rw [if_pos hexp]
  refine ⟨rfl, ?_, rfl, rfl, rfl, rfl, rfl⟩
  intro c hc
  exact List.mem_map_of_mem _ hc

/-- Witness for alarm_teardown: the alarm on the completed
`alarmCexSession` at its expiry instant closes connections 1 and 2 and
leaves getState returning NotFound. -/
theorem alarm_teardown_witness :
    loadSession alarmCexDO = some alarmCexSession ∧
      alarmCexSession.expiresAt ≤ 86400000 ∧
      alarmCexSession.status = SessionStatus.completed ∧
      (alarm alarmCexDO 86400000 true).2 =
        [WsEvent.closed 1 1000 "Session expired", WsEvent.closed 2 1000 "Session expired"] ∧
      (handleGetState (alarm alarmCexDO 86400000 true).1).2 = none := by
  have h := alarm_teardown alarmCexDO alarmCexSession 86400000 rfl (le_refl _)
  exact ⟨rfl, le_refl _, rfl, by rw [h.1]; rfl, h.2.2.2.2.2.2⟩

/-- Each stored state of an update sequence carries exactly the stamp
time of its update: `applyUpdate` always overwrites `updatedAt` last. -/
theorem mergeStates_map_updatedAt :
    ∀ (us : List (SessionUpdate × Nat)) (s : SessionState),
      (mergeStates s us).map SessionState.updatedAt = us.map Prod.snd := by
  intro us
  induction us with
  | nil => intro s; rfl
  | cons p rest ih =>
    intro s
    unfold mergeStates
    rw [List.map_cons, List.map_cons, ih]
    rfl

/-- Running a sequence of updates on a loaded coordinator leaves the
in-memory session equal to the spec-side field-wise merge. -/
theorem runUpdates_sessionData (k : Bool) :
    ∀ (us : List (SessionUpdate × Nat)) (st : DOState) (s : SessionState),
      st.sessionData = some s →
      (runUpdates st us k).sessionData = some (specMergeAll s us) := by
  intro us
  induction us with
  | nil => intro st s h; exact h
  | cons p rest ih =>
    intro st s h
    have hl : loadSession st = some s := by unfold loadSession; rw [h]
    rw [show runUpdates st (p :: rest) k = runUpdates (handleUpdate st p.1 p.2 k).1 rest k
        from rfl,
      show specMergeAll s (p :: rest) = specMergeAll (applyUpdate s p.1 p.2) rest from rfl]
    apply ih
    unfold handleUpdate
    rw [hl]
    exact persistToD1_sessionData _ k

/-- C2: after any sequence of successful updates on a loaded session,
getState returns exactly the field-wise merge of the initial record with
all applied partials in order (`specMergeAll`), and — the stamp times of
the serialized calls being non-decreasing — the stored `updatedAt`
values form a non-decreasing chain as well, so each update's stamp is ≥
every previously stored `updatedAt` (the pairwise form). -/
theorem session_update_merge (st : DOState) (s : SessionState)
    (us : List (SessionUpdate × Nat)) (k : Bool)
    (hmem : st.sessionData = some s)
    (hmono : List.Chain' (· ≤ ·) (s.updatedAt :: us.map Prod.snd)) :
    (handleGetState (runUpdates st us k)).2 = some (specMergeAll s us) ∧
      List.Pairwise (· ≤ ·)
        (s.updatedAt :: (mergeStates s us).map SessionState.updatedAt) := by
  constructor
  · have h := runUpdates_sessionData k us st s hmem
    unfold handleGetState loadSession
    rw [h]
  · rw [mergeStates_map_updatedAt]
    exact List.chain'_iff_pairwise.mp hmono

/-- Witness for session_update_merge on `mergeCexSession` with two
timestamped updates. -/
theorem session_update_merge_witness :
    mergeCexDO.sessionData = some mergeCexSession ∧
      List.Chain' (· ≤ ·) (mergeCexSession.updatedAt :: mergeCexUpdates.map Prod.snd) ∧
      (handleGetState (runUpdates mergeCexDO mergeCexUpdates true)).2 =
        some (specMergeAll mergeCexSession mergeCexUpdates) ∧
      List.Pairwise (· ≤ ·)
        (mergeCexSession.updatedAt ::
          (mergeStates mergeCexSession mergeCexUpdates).map SessionState.updatedAt) := by
  have hc : List.Chain' (· ≤ ·) (mergeCexSession.updatedAt :: mergeCexUpdates.map Prod.snd) := by
    norm_num [mergeCexSession, mergeCexUpdates, List.chain'_cons]
  have h := session_update_merge mergeCexDO mergeCexSession mergeCexUpdates true rfl hc
  exact ⟨rfl, hc, h.1, h.2⟩
